import Mathlib

/-!
Shallow embedding of the two Flask route modules of this repository
(`inventory_routes.py` and `sales_routes.py`).

Modelling conventions:
* A JSON value (`Json`) models what `flask.jsonify` serializes.  Python
  floats are modelled as rationals (`Json.num`), Python ints as `Json.int`;
  the two constructors are kept distinct because several mappers return a
  Python float `0.0` on one branch and a Python int on the other.
* A handler is a Lean function from its request parameters (each
  `request.args.get(name, "")` argument is an `Option String`, `none`
  meaning the query-string key is absent) and from the row set the
  database executor would return, to the `(body, http_status)` pair the
  Python function returns.  Handlers that validate parameters before
  calling the executor additionally record the list of queries they
  issue, so that "no database call happens" is a statement about the
  handler itself.
* Database rows are structures whose fields correspond, in order, to the
  positional indices `row[0]`, `row[1]`, ... used by the Python code;
  nullable columns are `Option`-valued.
* Python `round(x, 1)` (round-half-to-even at one decimal) and float
  `repr` are modelled over ℚ; the IEEE-754 representation error and the
  signed float zero are outside this model.
-/

attribute [local semireducible] Rat.add Rat.sub Rat.mul Rat.inv

/-- JSON values as produced by `flask.jsonify`.  `num` is a Python float,
`int` a Python int. -/
inductive Json where
  | null
  | str (s : String)
  | int (n : Int)
  | num (q : ℚ)
  | arr (xs : List Json)
  | obj (fields : List (String × Json))

/-- Association-list lookup used by `Json.get`. -/
def lookupField : List (String × Json) → String → Option Json
  | [], _ => none
  | (k, v) :: rest, key => if k = key then some v else lookupField rest key

/-- Field access on a JSON object (first binding wins, as in a Python dict
built from distinct literal keys). -/
def Json.get : Json → String → Option Json
  | .obj fields, key => lookupField fields key
  | _, _ => none

/-- The numeric value carried by a JSON number, whether it was a Python
int or a Python float. -/
def Json.asRat : Json → Option ℚ
  | .int n => some (n : ℚ)
  | .num q => some q
  | _ => none

/-- Value of a nonempty all-digit character list, `none` otherwise.
Helper for `pyToInt`. -/
def digitsVal? (cs : List Char) : Option Nat :=
  if cs = [] then none
  else if cs.all Char.isDigit then
    some (cs.foldl (fun a c => a * 10 + (c.toNat - 48)) 0)
  else none

/-- Python `int(s)` on an already-stripped string: an optional sign
followed by at least one digit; anything else raises `ValueError`,
modelled as `none`.  (Python's underscore digit grouping is not
modelled; it does not affect any claim.) -/
def pyToInt (s : String) : Option Int :=
  match s.data with
  | [] => none
  | c :: rest =>
    if c = '-' then (digitsVal? rest).map (fun n => -(n : Int))
    else if c = '+' then (digitsVal? rest).map (fun n => (n : Int))
    else (digitsVal? (c :: rest)).map (fun n => (n : Int))

/-- Python `int(x)` on a number: truncation toward zero (t-division of
the reduced numerator by the positive denominator). -/
def pyTrunc (q : ℚ) : Int := q.num.tdiv q.den

/-- Floor of a rational (Euclidean division by the positive
denominator), kept as a plain `def` so the kernel can evaluate it. -/
def ratFloor (q : ℚ) : Int := q.num.ediv q.den

/-- Round-half-to-even to the nearest integer, the rounding rule of
Python's built-in `round`. -/
def roundHalfEven (q : ℚ) : Int :=
  let f := ratFloor q
  let r := q - (f : ℚ)
  if r < 1 / 2 then f
  else if 1 / 2 < r then f + 1
  else if f % 2 = 0 then f else f + 1

/-- Python `round(x, 1)` expressed in tenths: the rounded value is
`pyRound1 x / 10`. -/
def pyRound1 (q : ℚ) : Int := roundHalfEven (q * 10)

/-- Decimal rendering of a nonnegative number of tenths as `d.d`,
matching Python's `repr` of a one-decimal float. -/
def fmtTenthsNat (n : Nat) : String :=
  toString (n / 10) ++ "." ++ toString (n % 10)

/-- Decimal rendering of a signed number of tenths, matching Python's
`repr` of a one-decimal float (the IEEE signed zero is not modelled). -/
def fmtTenths (t : Int) : String :=
  if t < 0 then "-" ++ fmtTenthsNat (-t).toNat else fmtTenthsNat t.toNat

/-- Leading-whitespace removal on a character list. -/
def dropLeadingWs : List Char → List Char
  | [] => []
  | c :: cs => if c.isWhitespace then dropLeadingWs cs else c :: cs

/-- Python `str.strip()`: remove leading and trailing whitespace.
Defined over the character list so the kernel can evaluate it. -/
def pyStrip (s : String) : String :=
  String.mk (dropLeadingWs (dropLeadingWs s.data).reverse).reverse

/-- Python `str.split(sep)` for a one-character separator on a character
list: every separator occurrence splits, empty pieces are kept, and the
empty input gives one empty piece. -/
def splitOnChar (sep : Char) : List Char → List (List Char)
  | [] => [[]]
  | c :: cs =>
    if c = sep then [] :: splitOnChar sep cs
    else
      match splitOnChar sep cs with
      | [] => [[c]]
      | piece :: pieces => (c :: piece) :: pieces

/-- Python `s.split(sep)` for a one-character separator. -/
def pySplit (s : String) (sep : Char) : List String :=
  (splitOnChar sep s.data).map String.mk

/-- Keep the first occurrence of each element, accumulator version. -/
def dedupAux (seen : List String) : List String → List String
  | [] => []
  | x :: xs => if x ∈ seen then dedupAux seen xs else x :: dedupAux (x :: seen) xs

/-- Distinct elements in first-occurrence order (the grouping order
`GROUP BY` is modelled with). -/
def dedupFirst (xs : List String) : List String := dedupAux [] xs

/-- Insert into a list kept in descending `key` order. -/
def insertDescBy {α : Type} (key : α → Int) (x : α) : List α → List α
  | [] => [x]
  | y :: ys => if key y < key x then x :: y :: ys else y :: insertDescBy key x ys

/-- Sort in descending `key` order (models `ORDER BY key DESC`; tie
order among equal keys is irrelevant to every claim). -/
def sortDescBy {α : Type} (key : α → Int) : List α → List α
  | [] => []
  | x :: xs => insertDescBy key x (sortDescBy key xs)

/-- A condition appended to the `WHERE` clause of the inventory-level
query (`warehouse_location = '...'` resp. `product_code = '...'` in the
source, carrying the interpolated request value). -/
inductive Cond where
  | locEq (value : String)
  | codeEq (value : String)

/-- Descriptor of a parameterized SQL query an endpoint hands to
`execute_query`, carrying the request values interpolated into the SQL
text.  An endpoint that fails validation issues no query. -/
inductive QueryDesc where
  | inventoryLevel (conds : List Cond)
  | stockoutByCoverDays (threshold : Int)
  | salesRateByProduct (productCode : Int)
  | forecastVsActual (productCode : Int)

/-- Result of a handler that validates parameters before querying:
response body, HTTP status, and the queries issued (in order). -/
structure HResp where
  body : Json
  status : Nat
  queries : List QueryDesc

namespace Inventory

/-- `GET /unique_product_categories` (inventory blueprint).  A result row
has one column, `row[0]`, so a row is modelled as that value.  The body
is `[row[0] for row in result]` on data, the documented 404 object when
the result set is empty. -/
def unique_product_categories (result : List Json) : Json × Nat :=
  if result.isEmpty then
    (Json.obj [("status", Json.int 404), ("message", Json.str "No product categories found")], 404)
  else (Json.arr result, 200)

/-- `GET /unique_warehouse_locations` (inventory blueprint). -/
def unique_warehouse_locations (result : List Json) : Json × Nat :=
  if result.isEmpty then
    (Json.obj [("status", Json.int 404), ("message", Json.str "No warehouse locations found")], 404)
  else (Json.arr result, 200)

/-- A grouped row of the two `tbl_oos_anom` aggregation queries:
`row[0]` the location, `row[1]` the count, `row[2]` the concatenated
product-code string built by `STUFF(... FOR XML PATH(''))` (nullable). -/
structure OosGroupRow where
  warehouseLocation : Json
  totalCount : Json
  codes : Option String

/-- `row[2].split(",") if row[2] else []` followed by
`[code.strip() for code in product_codes if code.strip()]`: split on
commas, keep the pieces whose stripped form is nonempty, stripped.
`none` and the empty string are both falsy in Python, hence `[]`. -/
def splitCodes : Option String → List String
  | none => []
  | some s =>
    if s = "" then []
    else ((pySplit s ',').filter (fun code => pyStrip code ≠ "")).map (fun code => pyStrip code)

/-- Row mapper of `stocked_out_products_all_locations`. -/
def mapStockedOutRow (r : OosGroupRow) : Json :=
  Json.obj [("Warehouse location", r.warehouseLocation),
            ("Total stocked out products", r.totalCount),
            ("Product codes", Json.arr ((splitCodes r.codes).map Json.str))]

/-- `GET /stocked_out_products_all_locations`. -/
def stocked_out_products_all_locations (result : List OosGroupRow) : Json × Nat :=
  if result.isEmpty then
    (Json.obj [("status", Json.int 404), ("message", Json.str "No stocked out products found")], 404)
  else (Json.arr (result.map mapStockedOutRow), 200)

/-- A row of the two `TOP 10` stock-detail queries, columns
`row[0]`..`row[5]` in source order. -/
structure StockDetailRow where
  productCode : Json
  warehouseLocation : Json
  coverDays : Json
  currentStock : Json
  idealStock : Json
  stockDiff : Json

/-- Row mapper shared verbatim by the overstocked and understocked
endpoints. -/
def mapStockDetailRow (r : StockDetailRow) : Json :=
  Json.obj [("Product Code", r.productCode),
            ("Warehouse Location", r.warehouseLocation),
            ("Cover Days", r.coverDays),
            ("Current Stock", r.currentStock),
            ("Ideal Stock", r.idealStock),
            ("Stock Difference", r.stockDiff)]

/-- `GET /overstocked_products_by_location_and_product`. -/
def overstocked_products_by_location_and_product (result : List StockDetailRow) : Json × Nat :=
  if result.isEmpty then
    (Json.obj [("status", Json.int 404), ("message", Json.str "No overstocked items found.")], 404)
  else (Json.arr (result.map mapStockDetailRow), 200)

/-- `GET /understocked_products_by_location_and_product`.  Its 404 body
has only a `message` key in the source. -/
def understocked_products_by_location_and_product (result : List StockDetailRow) : Json × Nat :=
  if result.isEmpty then
    (Json.obj [("message", Json.str "No understocked items found")], 404)
  else (Json.arr (result.map mapStockDetailRow), 200)

/-- A row of the stock-distribution query after the SQL `LEFT JOIN`:
`row[0]` location (falsy → "Unknown Location"), `row[1]`/`row[2]` the
shortage/excess counts, `row[3]` the out-of-stock count, which is `NULL`
for a location absent from the joined `oos_summary` (the SQL `ISNULL`
and the Python `is not None` check both coalesce it). -/
structure DistRow where
  warehouseLocation : Option String
  partiallyStocked : Option Int
  fullyStocked : Option Int
  completelyStockout : Option Int

/-- `str(row[0]) if row[0] else "Unknown Location"`. -/
def distLocationStr : Option String → String
  | none => "Unknown Location"
  | some s => if s = "" then "Unknown Location" else s

/-- `max(0, int(row[i])) if row[i] is not None else 0`. -/
def coalesceCount : Option Int → Int
  | none => 0
  | some n => max 0 n

/-- Per-row record of the stock-distribution response; `Total Items` is
the sum of the three preceding counts of the same row. -/
def mapDistRow (r : DistRow) : Json :=
  Json.obj [("Warehouse Location", Json.str (distLocationStr r.warehouseLocation)),
            ("Partially Stocked", Json.int (coalesceCount r.partiallyStocked)),
            ("Fully Stocked", Json.int (coalesceCount r.fullyStocked)),
            ("Stocked Out", Json.int (coalesceCount r.completelyStockout)),
            ("Total Items", Json.int (coalesceCount r.partiallyStocked +
              coalesceCount r.fullyStocked + coalesceCount r.completelyStockout))]

/-- The source's `for row in results` loop: accumulates the three grand
totals (`total_partially_stocked`, `total_fully_stocked`,
`total_completely_stockout`) alongside the list of records; the totals
are threaded but the handler only uses the list. -/
def distLoop : (Int × Int × Int) → List DistRow → (Int × Int × Int) × List Json
  | acc, [] => (acc, [])
  | (tp, tf, ts), r :: rs =>
    let p := coalesceCount r.partiallyStocked
    let f := coalesceCount r.fullyStocked
    let s := coalesceCount r.completelyStockout
    let rest := distLoop (tp + p, tf + f, ts + s) rs
    (rest.1, mapDistRow r :: rest.2)

/-- `GET /stock_distribution_and_status_across_all_locations`. -/
def stock_distribution_and_status_across_all_locations (results : List DistRow) : Json × Nat :=
  if results.isEmpty then
    (Json.obj [("message", Json.str "No stock level data found"),
               ("status", Json.str "empty"), ("data", Json.arr [])], 404)
  else (Json.arr (distLoop (0, 0, 0) results).2, 200)

/-- A row of the two `TOP 5` variance queries; `row[4]` and `row[5]` are
the columns used arithmetically. -/
structure VarianceRow where
  warehouseLocation : Json
  productCode : Json
  productCategory : Json
  stockDiff : Json
  currentStock : ℚ
  idealStock : ℚ

/-- The `Variancy` string: `f"{round(variance_percentage, 1)}%"` where
`variance_percentage = (current - ideal) / ideal * 100 if ideal > 0 else 0`.
In the guard branch the value is a Python float, so `round(·, 1)` keeps
one decimal digit in its `repr`; in the `else` branch the value is the
Python int `0`, `round(0, 1)` is the int `0`, and the string is `"0%"`
without a decimal point. -/
def variancyStr (currentStock idealStock : ℚ) : String :=
  if idealStock > 0 then
    fmtTenths (pyRound1 ((currentStock - idealStock) / idealStock * 100)) ++ "%"
  else "0%"

/-- One item built by `process_variance_data`. -/
def mapVarianceRow (r : VarianceRow) : Json :=
  Json.obj [("Warehouse Location", r.warehouseLocation),
            ("Product Code", r.productCode),
            ("Product Category", r.productCategory),
            ("Stock Difference", r.stockDiff),
            ("Current Stock", Json.num r.currentStock),
            ("Ideal Stock Requirement", Json.num r.idealStock),
            ("Variancy", Json.str (variancyStr r.currentStock r.idealStock))]

/-- The inner `process_variance_data(results)` helper. -/
def process_variance_data (results : List VarianceRow) : List Json :=
  results.map mapVarianceRow

/-- `GET /inventory_variance_analysis_across_locations`: two queries,
no empty-result check, always HTTP 200. -/
def inventory_variance_analysis_across_locations
    (positive_results negative_results : List VarianceRow) : Json × Nat :=
  (Json.obj [("positive_variance_data", Json.arr (process_variance_data positive_results)),
             ("negative_variance_data", Json.arr (process_variance_data negative_results))], 200)

/-- A row of the expected-stock-requirements query; `row[1]` and
`row[2]` go through Python `int(...)`. -/
structure ReqStockRow where
  productCode : Json
  totalRequiredStock : ℚ
  locationCount : ℚ

/-- `GET /expected_stock_requirements_for_products_till_month_ends`. -/
def expected_stock_requirements_for_products_till_month_ends (result : List ReqStockRow) : Json × Nat :=
  if result.isEmpty then
    (Json.obj [("status", Json.int 404), ("message", Json.str "No stock level data found")], 404)
  else
    (Json.arr (result.map (fun r =>
      Json.obj [("Product Code", r.productCode),
                ("Required Stock", Json.int (pyTrunc r.totalRequiredStock)),
                ("Warehouse Location Count", Json.int (pyTrunc r.locationCount))])), 200)

/-- A row of the cover-days bucketing query: `row[0]` the range label,
`row[1]` the count. -/
structure CoverDaysRow where
  rangeLabel : Json
  productCount : Json

/-- `GET /cover_days_summary`. -/
def cover_days_summary (results : List CoverDaysRow) : Json × Nat :=
  if results.isEmpty then
    (Json.obj [("status", Json.int 404), ("message", Json.str "No cover days distribution data found")], 404)
  else
    (Json.arr (results.map (fun r =>
      Json.obj [("Cover Days Range", r.rangeLabel),
                ("Product Code and Location pair count", r.productCount)])), 200)

/-- `GET /discontinued_products_across_all_warehouse_locations`; its
rows have the same positional shape as `OosGroupRow` and the mapper uses
the same split/strip/drop-empties pipeline. -/
def discontinued_products_across_all_warehouse_locations (results : List OosGroupRow) : Json × Nat :=
  if results.isEmpty then
    (Json.obj [("status", Json.int 404), ("message", Json.str "No discontinued products data found")], 404)
  else
    (Json.arr (results.map (fun r =>
      Json.obj [("Warehouse Location", r.warehouseLocation),
                ("Discontinued Product Count", r.totalCount),
                ("Discontinued Product Codes", Json.arr ((splitCodes r.codes).map Json.str))])), 200)

/-- A row of the inventory-level query, columns `row[0]`..`row[2]`. -/
structure InvLevelRow where
  warehouseLocation : Json
  productCode : Json
  stockAtHand : Json

/-- The `conditions` list the handler builds (one entry per nonempty
stripped parameter, location first). -/
def invLevelConds (location product_code : String) : List Cond :=
  (if location ≠ "" then [Cond.locEq location] else []) ++
  (if product_code ≠ "" then [Cond.codeEq product_code] else [])

/-- The `search_criteria` list of the 404 message. -/
def searchCriteria (location product_code : String) : List String :=
  (if location ≠ "" then ["location: " ++ location] else []) ++
  (if product_code ≠ "" then ["product code: " ++ product_code] else [])

/-- `GET /get_inventory_level_for_products_and_locations`.  Both
parameters are read with `request.args.get(name, "").strip()`; if both
are empty the handler returns 400 before building any query. -/
def get_inventory_level_for_products_and_locations
    (location_arg product_code_arg : Option String) (results : List InvLevelRow) : HResp :=
  let location := pyStrip (location_arg.getD "")
  let product_code := pyStrip (product_code_arg.getD "")
  if location = "" ∧ product_code = "" then
    { body := Json.obj [("status", Json.int 400),
        ("message", Json.str "At least one parameter (location or product_code) is required")],
      status := 400, queries := [] }
  else if results.isEmpty then
    { body := Json.obj [("status", Json.int 404),
        ("message", Json.str ("No inventory data found for " ++
          String.intercalate " and " (searchCriteria location product_code)))],
      status := 404, queries := [QueryDesc.inventoryLevel (invLevelConds location product_code)] }
  else
    { body := Json.arr (results.map (fun r =>
        Json.obj [("Warehouse Location", r.warehouseLocation),
                  ("Product Code", r.productCode),
                  ("Available stock at hand", r.stockAtHand)])),
      status := 200, queries := [QueryDesc.inventoryLevel (invLevelConds location product_code)] }

/-- A row of `tbl_available_stock_anom` restricted to the two columns
the estimated-stockout query reads. -/
structure StockRow where
  warehouseLocation : String
  coverDays : Int

/-- `COUNT(*)` of the location's group. -/
def countTotal (table : List StockRow) (l : String) : Int :=
  ((table.filter (fun r => r.warehouseLocation == l)).length : Int)

/-- `SUM(CASE WHEN cover_days <= threshold THEN 1 ELSE 0 END)` of the
location's group. -/
def countBelow (table : List StockRow) (l : String) (threshold : Int) : Int :=
  ((table.filter (fun r => r.warehouseLocation == l && decide (r.coverDays ≤ threshold))).length : Int)

/-- Semantics of the estimated-stockout query: group by location, select
`(location, total, below-threshold count)`, keep groups with a positive
below-threshold count (`HAVING ... > 0`), order by that count
descending. -/
def stockoutQuery (table : List StockRow) (threshold : Int) : List (String × Int × Int) :=
  sortDescBy (fun g => g.2.2)
    (((dedupFirst (table.map (fun r => r.warehouseLocation))).map
        (fun l => (l, countTotal table l, countBelow table l threshold))).filter
      (fun g => decide (0 < g.2.2)))

/-- `GET /estimated_stockout_of_products_by_cover_days`: requires a
nonempty `cover_days` that `int(...)` accepts and that is positive;
only then is the (single) query issued. -/
def estimated_stockout_of_products_by_cover_days
    (cover_days_arg : Option String) (table : List StockRow) : HResp :=
  let cover_days := pyStrip (cover_days_arg.getD "")
  if cover_days = "" then
    { body := Json.obj [("status", Json.int 400),
        ("message", Json.str "Cover days parameter is required")],
      status := 400, queries := [] }
  else
    match pyToInt cover_days with
    | none =>
      { body := Json.obj [("status", Json.int 400),
          ("message", Json.str "Invalid cover_days. Must be a valid number.")],
        status := 400, queries := [] }
    | some n =>
      if n ≤ 0 then
        { body := Json.obj [("status", Json.int 400),
            ("message", Json.str "Invalid cover_days. Must be a positive integer.")],
          status := 400, queries := [] }
      else
        let result := stockoutQuery table n
        if result.isEmpty then
          { body := Json.obj [("status", Json.int 404),
              ("message", Json.str "No estimates found for the given criteria")],
            status := 404, queries := [QueryDesc.stockoutByCoverDays n] }
        else
          { body := Json.arr (result.map (fun g =>
              Json.obj [("Warehouse Location", Json.str g.1),
                        ("Total Products", Json.int g.2.1),
                        ("Count of Products under given days", Json.int g.2.2)])),
            status := 200, queries := [QueryDesc.stockoutByCoverDays n] }

end Inventory

namespace Sales

/-- `GET /unique_product_categories` (sales blueprint, over
`tbl_sales_forecast`); same handler logic as the inventory one. -/
def unique_product_categories (result : List Json) : Json × Nat :=
  if result.isEmpty then
    (Json.obj [("status", Json.int 404), ("message", Json.str "No product categories found")], 404)
  else (Json.arr result, 200)

/-- `GET /unique_warehouse_locations` (sales blueprint). -/
def unique_warehouse_locations (result : List Json) : Json × Nat :=
  if result.isEmpty then
    (Json.obj [("status", Json.int 404), ("message", Json.str "No warehouse locations found")], 404)
  else (Json.arr result, 200)

/-- The guarded magnitude mapping every sales metric column goes
through: `abs(int(float(row[i]))) if row[i] else 0.0`
(`abs(int(row[1]))` in `sales_rate_by_product_and_location`; over the
rational model `float(·)` is the identity, so the two forms coincide).
The guard tests Python truthiness, so `None` and `0` both take the
`else` branch and produce the Python float `0.0`; any other value
produces a Python int. -/
def pyRateField : Option ℚ → Json
  | none => Json.num 0
  | some q => if q = 0 then Json.num 0 else Json.int (pyTrunc q).natAbs

/-- A row of the top-products query: `row[0]` the product code,
`row[1]`..`row[3]` the three averaged (nullable) rate columns. -/
structure ForecastRow where
  productCode : Json
  currentSalesRate : Option ℚ
  currentForecastRate : Option ℚ
  nextMonthForecastRate : Option ℚ

/-- Row mapper of `top_products_and_their_projected_demand`. -/
def mapTopProductsRow (r : ForecastRow) : Json :=
  Json.obj [("Product Code", r.productCode),
            ("Current Month Sales Rate", pyRateField r.currentSalesRate),
            ("Current Month Forecast Rate", pyRateField r.currentForecastRate),
            ("Next Month Forecast Rate", pyRateField r.nextMonthForecastRate)]

/-- `GET /top_products_and_their_projected_demand`: no empty-result
check, always HTTP 200 with the mapped list. -/
def top_products_and_their_projected_demand (results : List ForecastRow) : Json × Nat :=
  (Json.arr (results.map mapTopProductsRow), 200)

/-- A row of the two selling-status queries: `row[0]` the product code,
`row[1]` sales, `row[2]` forecast, `row[3]` forecast error (all
nullable averages). -/
structure SellingRow where
  productCode : Json
  totalSales : Option ℚ
  totalForecast : Option ℚ
  salesDifference : Option ℚ

/-- Row mapper of `overselling_products_based_on_sales` (note `row[2]`
is listed before `row[1]` in the dict). -/
def mapOversellingRow (r : SellingRow) : Json :=
  Json.obj [("Product Code", r.productCode),
            ("Total Forecast per day", pyRateField r.totalForecast),
            ("Total Sales per day", pyRateField r.totalSales),
            ("Oversold per day", pyRateField r.salesDifference)]

/-- `GET /overselling_products_based_on_sales`: no empty-result check,
always HTTP 200 with a message/data envelope. -/
def overselling_products_based_on_sales (results : List SellingRow) : Json × Nat :=
  (Json.obj [("message", Json.str "All overselling products across all locations."),
             ("data", Json.arr (results.map mapOversellingRow))], 200)

/-- Row mapper of `underselling_products_based_on_sales`. -/
def mapUndersellingRow (r : SellingRow) : Json :=
  Json.obj [("Product Code", r.productCode),
            ("Total Forecast per day", pyRateField r.totalForecast),
            ("Total Sales per day", pyRateField r.totalSales),
            ("Undersold per day", pyRateField r.salesDifference)]

/-- `GET /underselling_products_based_on_sales`: no empty-result check,
always HTTP 200 with a message/data envelope. -/
def underselling_products_based_on_sales (results : List SellingRow) : Json × Nat :=
  (Json.obj [("message", Json.str "All underselling products across all locations."),
             ("data", Json.arr (results.map mapUndersellingRow))], 200)

/-- A row of the per-location sales-rate query: `row[0]` the location,
`row[1]` the averaged (nullable) sales rate. -/
structure LocationSalesRow where
  warehouseLocation : Json
  sales : Option ℚ

/-- Row mapper of `sales_rate_by_product_and_location`
(`abs(int(row[1])) if row[1] else 0.0`). -/
def mapSalesRateRow (r : LocationSalesRow) : Json :=
  Json.obj [("Warehouse Location", r.warehouseLocation),
            ("Sales rate per day", pyRateField r.sales)]

/-- `GET /sales_rate_by_product_and_location`: requires a nonempty
`product_code` that `int(...)` accepts; only then is the query issued.
No empty-result check afterwards: HTTP 200 with the mapped list. -/
def sales_rate_by_product_and_location
    (product_code_arg : Option String) (results : List LocationSalesRow) : HResp :=
  let product_code := pyStrip (product_code_arg.getD "")
  if product_code = "" then
    { body := Json.obj [("status", Json.str "error"),
        ("message", Json.str "Product code is required")],
      status := 400, queries := [] }
  else
    match pyToInt product_code with
    | none =>
      { body := Json.obj [("status", Json.str "error"),
          ("message", Json.str "Product code must be an integer")],
        status := 400, queries := [] }
    | some n =>
      { body := Json.arr (results.map mapSalesRateRow),
        status := 200, queries := [QueryDesc.salesRateByProduct n] }

/-- A row of the forecast-vs-actual query, columns `row[0]`..`row[4]`. -/
structure ForecastActualRow where
  warehouseLocation : Json
  productCode : Json
  totalForecast : Option ℚ
  totalActualSales : Option ℚ
  totalForecastError : Option ℚ

/-- Row mapper of
`forecast_sales_vs_actual_sales_for_products_and_locations`. -/
def mapForecastActualRow (r : ForecastActualRow) : Json :=
  Json.obj [("Warehouse Location", r.warehouseLocation),
            ("Product Code", r.productCode),
            ("Average Forecast Rate", pyRateField r.totalForecast),
            ("Average Sales Rate", pyRateField r.totalActualSales),
            ("Average Forecast Error", pyRateField r.totalForecastError)]

/-- `GET /forecast_sales_vs_actual_sales_for_products_and_locations`:
same `product_code` validation as the sales-rate endpoint; no
empty-result check afterwards, HTTP 200 with the mapped list. -/
def forecast_sales_vs_actual_sales_for_products_and_locations
    (product_code_arg : Option String) (results : List ForecastActualRow) : HResp :=
  let product_code := pyStrip (product_code_arg.getD "")
  if product_code = "" then
    { body := Json.obj [("status", Json.str "error"),
        ("message", Json.str "Product code is required")],
      status := 400, queries := [] }
  else
    match pyToInt product_code with
    | none =>
      { body := Json.obj [("status", Json.str "error"),
          ("message", Json.str "Product code must be an integer")],
        status := 400, queries := [] }
    | some n =>
      { body := Json.arr (results.map mapForecastActualRow),
        status := 200, queries := [QueryDesc.forecastVsActual n] }

end Sales

section Lemmas

/-- Membership is preserved by sorted insertion. -/
theorem mem_insertDescBy {α : Type} (key : α → Int) (x a : α) (l : List α) :
    a ∈ insertDescBy key x l ↔ a = x ∨ a ∈ l := by
  induction l with
  | nil => simp [insertDescBy]
  | cons y ys ih =>
    by_cases h : key y < key x
    · simp [insertDescBy, h]
    · simp only [insertDescBy, if_neg h, List.mem_cons, ih]
      tauto

/-- Membership is preserved by the descending sort. -/
theorem mem_sortDescBy {α : Type} (key : α → Int) (a : α) (l : List α) :
    a ∈ sortDescBy key l ↔ a ∈ l := by
  induction l with
  | nil => simp [sortDescBy]
  | cons y ys ih => simp [sortDescBy, mem_insertDescBy, ih]

end Lemmas

/-- C5: the row mapper of the stocked-out-products-by-location report
splits the concatenated product-codes string on commas, strips
whitespace from each piece and drops empty pieces; on `"A1, B2, C3"`
(also with extra leading/trailing whitespace around the pieces) the
mapped `Product codes` list is exactly `["A1","B2","C3"]` in order, and
no mapped list ever contains an empty entry. -/
theorem c5_stocked_out_codes_split :
    (∀ r : Inventory.OosGroupRow,
        Json.get (Inventory.mapStockedOutRow r) "Product codes" =
          some (Json.arr ((Inventory.splitCodes r.codes).map Json.str))) ∧
    Inventory.splitCodes (some "A1, B2, C3") = ["A1", "B2", "C3"] ∧
    Inventory.splitCodes (some "  A1 ,  B2 , C3  ") = ["A1", "B2", "C3"] ∧
    Inventory.splitCodes (some "A1 , B2 ,C3 ") = ["A1", "B2", "C3"] ∧
    (∀ s : Option String, ∀ c ∈ Inventory.splitCodes s, c ≠ "") := by
  refine ⟨fun r => rfl, rfl, rfl, rfl, ?_⟩
  intro s c hc
  match s with
  | none => simp [Inventory.splitCodes] at hc
  | some str =>
    by_cases h : str = ""
    · simp [Inventory.splitCodes, h] at hc
    · simp only [Inventory.splitCodes, if_neg h, List.mem_map, List.mem_filter,
        decide_eq_true_eq] at hc
      obtain ⟨x, ⟨_, hx⟩, rfl⟩ := hc
      exact hx

/-- C5 witness: a concrete element produced by the split is nonempty. -/
theorem c5_witness :
    "A1" ∈ Inventory.splitCodes (some "A1, B2, C3") ∧ "A1" ≠ "" := by
  exact ⟨by decide, c5_stocked_out_codes_split.2.2.2.2 (some "A1, B2, C3") "A1" (by decide)⟩

/-- C2 counterexample: on a variance row with `ideal_stock = 0` the
mapped `Variancy` field is the string `"0%"` (the guard branch yields
the Python int `0`, whose `round(·, 1)` stays an int), not the
one-decimal string `"0.0%"` the claim states. -/
theorem c2_counterexample :
    Json.get (Inventory.mapVarianceRow
        ⟨Json.str "L1", Json.str "P1", Json.str "C1", Json.int 150, 150, 0⟩) "Variancy"
      = some (Json.str "0%") ∧
    Json.get (Inventory.mapVarianceRow
        ⟨Json.str "L1", Json.str "P1", Json.str "C1", Json.int 150, 150, 0⟩) "Variancy"
      ≠ some (Json.str "0.0%") := by
  constructor
  · rfl
  · intro h
    have : Inventory.variancyStr 150 0 = "0.0%" := by
      have h' := h
      simp only [Inventory.mapVarianceRow, Json.get, lookupField] at h'
      simpa using h'
    simp [Inventory.variancyStr] at this

/-- C2 amended: for every variance-analysis row, if `ideal_stock > 0`
the `Variancy` field is the one-decimal rendering (round-half-to-even,
as Python's `round`) of `(current_stock - ideal_stock) / ideal_stock *
100` followed by `"%"` — in particular `current_stock = 150`,
`ideal_stock = 100` gives `"50.0%"` — and if `ideal_stock ≤ 0` the
field is the integer-formatted string `"0%"`. -/
theorem c2_variancy_format (r : Inventory.VarianceRow) :
    (r.idealStock > 0 →
      Json.get (Inventory.mapVarianceRow r) "Variancy" =
        some (Json.str (fmtTenths (pyRound1
          ((r.currentStock - r.idealStock) / r.idealStock * 100)) ++ "%"))) ∧
    (r.idealStock ≤ 0 →
      Json.get (Inventory.mapVarianceRow r) "Variancy" = some (Json.str "0%")) ∧
    Inventory.variancyStr 150 100 = "50.0%" := by
  have hget : Json.get (Inventory.mapVarianceRow r) "Variancy" =
      some (Json.str (Inventory.variancyStr r.currentStock r.idealStock)) := rfl
  refine ⟨fun h => ?_, fun h => ?_, rfl⟩
  · rw [hget, Inventory.variancyStr, if_pos h]
  · rw [hget, Inventory.variancyStr, if_neg (not_lt.mpr h)]

/-- C2 witness: the amended theorem evaluated on the claim's concrete
inputs, `(150, 100)` and `(150, 0)`. -/
theorem c2_witness :
    ((100 : ℚ) > 0 ∧
      Json.get (Inventory.mapVarianceRow
          ⟨Json.null, Json.null, Json.null, Json.null, 150, 100⟩) "Variancy"
        = some (Json.str "50.0%")) ∧
    ((0 : ℚ) ≤ 0 ∧
      Json.get (Inventory.mapVarianceRow
          ⟨Json.null, Json.null, Json.null, Json.null, 150, 0⟩) "Variancy"
        = some (Json.str "0%")) := by
  constructor
  · refine ⟨by norm_num, ?_⟩
    have h := (c2_variancy_format ⟨Json.null, Json.null, Json.null, Json.null, 150, 100⟩).1
      (by norm_num)
    rw [h]
    rfl
  · refine ⟨le_refl 0, ?_⟩
    exact (c2_variancy_format ⟨Json.null, Json.null, Json.null, Json.null, 150, 0⟩).2.1
      (le_refl 0)

/-- C6: in the top-products-by-projected-demand row mapper, a `NULL` in
any of the three rate columns maps the corresponding field to the float
`0.0` (the mapper is a total function — no error), and a non-null value
maps to a field whose numeric value is the absolute value of the
value's truncation to an integer. -/
theorem c6_top_products_null_rates (r : Sales.ForecastRow) :
    (r.currentSalesRate = none →
      Json.get (Sales.mapTopProductsRow r) "Current Month Sales Rate" = some (Json.num 0)) ∧
    (r.currentForecastRate = none →
      Json.get (Sales.mapTopProductsRow r) "Current Month Forecast Rate" = some (Json.num 0)) ∧
    (r.nextMonthForecastRate = none →
      Json.get (Sales.mapTopProductsRow r) "Next Month Forecast Rate" = some (Json.num 0)) ∧
    (∀ q : ℚ, r.nextMonthForecastRate = some q →
      (Json.get (Sales.mapTopProductsRow r) "Next Month Forecast Rate").bind Json.asRat
        = some (((pyTrunc q).natAbs : ℚ))) ∧
    (∀ q : ℚ, r.currentSalesRate = some q →
      (Json.get (Sales.mapTopProductsRow r) "Current Month Sales Rate").bind Json.asRat
        = some (((pyTrunc q).natAbs : ℚ))) ∧
    (∀ q : ℚ, r.currentForecastRate = some q →
      (Json.get (Sales.mapTopProductsRow r) "Current Month Forecast Rate").bind Json.asRat
        = some (((pyTrunc q).natAbs : ℚ))) := by
  have hval : ∀ v : Option ℚ, ∀ q : ℚ, v = some q →
      (Sales.pyRateField v).asRat = some (((pyTrunc q).natAbs : ℚ)) := by
    intro v q hv
    subst hv
    by_cases h : q = 0
    · subst h
      simp [Sales.pyRateField, Json.asRat]
      rfl
    · simp only [Sales.pyRateField, if_neg h, Json.asRat, Option.some.injEq]
      exact Int.cast_natCast _
  have h1 : Json.get (Sales.mapTopProductsRow r) "Current Month Sales Rate"
      = some (Sales.pyRateField r.currentSalesRate) := rfl
  have h2 : Json.get (Sales.mapTopProductsRow r) "Current Month Forecast Rate"
      = some (Sales.pyRateField r.currentForecastRate) := rfl
  have h3 : Json.get (Sales.mapTopProductsRow r) "Next Month Forecast Rate"
      = some (Sales.pyRateField r.nextMonthForecastRate) := rfl
  refine ⟨fun h => ?_, fun h => ?_, fun h => ?_, fun q h => ?_, fun q h => ?_, fun q h => ?_⟩
  · rw [h1, h]; rfl
  · rw [h2, h]; rfl
  · rw [h3, h]; rfl
  · rw [h3]; simpa using hval _ q h
  · rw [h1]; simpa using hval _ q h
  · rw [h2]; simpa using hval _ q h

/-- C6 witness: the theorem applied to a concrete row with a null sales
rate and a non-null negative next-month rate. -/
theorem c6_witness :
    (Json.get (Sales.mapTopProductsRow ⟨Json.str "P", none, some 0, some (-7/2)⟩)
        "Current Month Sales Rate" = some (Json.num 0)) ∧
    ((Json.get (Sales.mapTopProductsRow ⟨Json.str "P", none, some 0, some (-7/2)⟩)
        "Next Month Forecast Rate").bind Json.asRat = some 3) := by
  have h := c6_top_products_null_rates ⟨Json.str "P", none, some 0, some (-7/2)⟩
  refine ⟨h.1 rfl, ?_⟩
  have := h.2.2.2.1 (-7/2) rfl
  rw [this]
  norm_num
  rfl

/-- C10: every sales-report row mapper guards its metric columns with
Python truthiness, so the value `0` is mapped exactly like `NULL`: both
give the float `0.0`, and a caller cannot tell a zero average from a
missing one; every other value gives a Python int (the magnitude of its
truncation).  The five mappers all route the column through
`Sales.pyRateField`. -/
theorem c10_zero_and_null_collapse :
    Sales.pyRateField (some 0) = Sales.pyRateField none ∧
    Sales.pyRateField none = Json.num 0 ∧
    (∀ q : ℚ, q ≠ 0 → Sales.pyRateField (some q) = Json.int (pyTrunc q).natAbs) ∧
    (∀ r : Sales.ForecastRow,
      Json.get (Sales.mapTopProductsRow r) "Current Month Sales Rate"
        = some (Sales.pyRateField r.currentSalesRate)) ∧
    (∀ r : Sales.SellingRow,
      Json.get (Sales.mapOversellingRow r) "Total Sales per day"
        = some (Sales.pyRateField r.totalSales)) ∧
    (∀ r : Sales.SellingRow,
      Json.get (Sales.mapUndersellingRow r) "Total Sales per day"
        = some (Sales.pyRateField r.totalSales)) ∧
    (∀ r : Sales.LocationSalesRow,
      Json.get (Sales.mapSalesRateRow r) "Sales rate per day"
        = some (Sales.pyRateField r.sales)) ∧
    (∀ r : Sales.ForecastActualRow,
      Json.get (Sales.mapForecastActualRow r) "Average Sales Rate"
        = some (Sales.pyRateField r.totalActualSales)) := by
  refine ⟨rfl, rfl, fun q h => ?_, fun r => rfl, fun r => rfl, fun r => rfl,
    fun r => rfl, fun r => rfl⟩
  simp [Sales.pyRateField, h]

/-- C10 witness: the non-zero branch applied at `-7/2`, whose truncation
has magnitude 3. -/
theorem c10_witness :
    (-7 / 2 : ℚ) ≠ 0 ∧ Sales.pyRateField (some (-7 / 2)) = Json.int 3 := by
  refine ⟨by norm_num, ?_⟩
  rw [c10_zero_and_null_collapse.2.2.1 (-7 / 2) (by norm_num)]
  rfl

/-- C9: in every record of the stock-distribution-summary response the
three count fields are the `max(0, ·)`-clamped, null-coalesced database
values, hence each is ≥ 0 for every possible input row, and the
`Total Items` field — their sum — is ≥ 0 as well. -/
theorem c9_distribution_counts_nonneg (r : Inventory.DistRow) :
    Json.get (Inventory.mapDistRow r) "Partially Stocked"
      = some (Json.int (Inventory.coalesceCount r.partiallyStocked)) ∧
    Json.get (Inventory.mapDistRow r) "Fully Stocked"
      = some (Json.int (Inventory.coalesceCount r.fullyStocked)) ∧
    Json.get (Inventory.mapDistRow r) "Stocked Out"
      = some (Json.int (Inventory.coalesceCount r.completelyStockout)) ∧
    0 ≤ Inventory.coalesceCount r.partiallyStocked ∧
    0 ≤ Inventory.coalesceCount r.fullyStocked ∧
    0 ≤ Inventory.coalesceCount r.completelyStockout ∧
    Json.get (Inventory.mapDistRow r) "Total Items"
      = some (Json.int (Inventory.coalesceCount r.partiallyStocked +
          Inventory.coalesceCount r.fullyStocked +
          Inventory.coalesceCount r.completelyStockout)) ∧
    0 ≤ Inventory.coalesceCount r.partiallyStocked +
          Inventory.coalesceCount r.fullyStocked +
          Inventory.coalesceCount r.completelyStockout := by
  have hnn : ∀ v : Option Int, 0 ≤ Inventory.coalesceCount v := by
    intro v
    match v with
    | none => exact le_refl 0
    | some n => exact le_max_left 0 n
  refine ⟨rfl, rfl, rfl, hnn _, hnn _, hnn _, rfl, ?_⟩
  have h1 := hnn r.partiallyStocked
  have h2 := hnn r.fullyStocked
  have h3 := hnn r.completelyStockout
  omega

/-- C8: in the stock-distribution-summary response, a null out-of-stock
count is coalesced to 0; every record's `Total Items` equals the sum of
that same record's three count fields; and the response is exactly the
per-row mapping of the result rows — the grand totals the loop threads
through `Inventory.distLoop` never influence it (the output is the same
for every accumulator value), so they appear nowhere in the response. -/
theorem c8_distribution_summary_shape :
    (∀ acc : Int × Int × Int, ∀ rows : List Inventory.DistRow,
        (Inventory.distLoop acc rows).2 = rows.map Inventory.mapDistRow) ∧
    (∀ rows : List Inventory.DistRow, rows ≠ [] →
        Inventory.stock_distribution_and_status_across_all_locations rows
          = (Json.arr (rows.map Inventory.mapDistRow), 200)) ∧
    (∀ r : Inventory.DistRow, r.completelyStockout = none →
        Json.get (Inventory.mapDistRow r) "Stocked Out" = some (Json.int 0)) ∧
    (∀ r : Inventory.DistRow,
        Json.get (Inventory.mapDistRow r) "Total Items"
          = some (Json.int (Inventory.coalesceCount r.partiallyStocked +
              Inventory.coalesceCount r.fullyStocked +
              Inventory.coalesceCount r.completelyStockout))) := by
  have hloop : ∀ rows : List Inventory.DistRow, ∀ acc : Int × Int × Int,
      (Inventory.distLoop acc rows).2 = rows.map Inventory.mapDistRow := by
    intro rows
    induction rows with
    | nil => intro acc; rfl
    | cons r rs ih =>
      intro acc
      obtain ⟨tp, tf, ts⟩ := acc
      simp only [Inventory.distLoop, List.map_cons]
      rw [ih]
  refine ⟨fun acc rows => hloop rows acc, fun rows h => ?_, fun r h => ?_, fun r => rfl⟩
  · have hne : ¬ rows.isEmpty := by
      simpa [List.isEmpty_iff] using h
    simp only [Inventory.stock_distribution_and_status_across_all_locations, if_neg hne]
    rw [hloop rows (0, 0, 0)]
  · have : Inventory.coalesceCount r.completelyStockout = 0 := by
      rw [h]; rfl
    have hget : Json.get (Inventory.mapDistRow r) "Stocked Out"
        = some (Json.int (Inventory.coalesceCount r.completelyStockout)) := rfl
    rw [hget, this]

/-- C8 witness: the theorem applied to a one-row result whose
out-of-stock count is null. -/
theorem c8_witness :
    Inventory.stock_distribution_and_status_across_all_locations
        [⟨some "L1", some 2, some 3, none⟩]
      = (Json.arr [Inventory.mapDistRow ⟨some "L1", some 2, some 3, none⟩], 200) ∧
    Json.get (Inventory.mapDistRow ⟨some "L1", some 2, some 3, none⟩) "Stocked Out"
      = some (Json.int 0) := by
  have h := c8_distribution_summary_shape
  exact ⟨h.2.1 [⟨some "L1", some 2, some 3, none⟩] (by simp),
    h.2.2.1 ⟨some "L1", some 2, some 3, none⟩ rfl⟩

/-- C7: the inventory-level endpoint accepts any request with at least
one of `location` / `product_code` nonempty after stripping (it issues
exactly its one query and never returns 400), and rejects a request
with neither, answering 400 with the exact documented body and issuing
no query. -/
theorem c7_inventory_level_validation
    (location_arg product_code_arg : Option String)
    (results : List Inventory.InvLevelRow) :
    (¬ (pyStrip (location_arg.getD "") = "" ∧ pyStrip (product_code_arg.getD "") = "") →
      (Inventory.get_inventory_level_for_products_and_locations
          location_arg product_code_arg results).queries
        = [QueryDesc.inventoryLevel (Inventory.invLevelConds
            (pyStrip (location_arg.getD "")) (pyStrip (product_code_arg.getD "")))] ∧
      (Inventory.get_inventory_level_for_products_and_locations
          location_arg product_code_arg results).status ≠ 400) ∧
    (pyStrip (location_arg.getD "") = "" ∧ pyStrip (product_code_arg.getD "") = "" →
      Inventory.get_inventory_level_for_products_and_locations
          location_arg product_code_arg results
        = { body := Json.obj [("status", Json.int 400),
              ("message", Json.str "At least one parameter (location or product_code) is required")],
            status := 400, queries := [] }) := by
  constructor
  · intro h
    by_cases he : results.isEmpty
    · constructor
      · simp [Inventory.get_inventory_level_for_products_and_locations, if_neg h, he]
      · simp [Inventory.get_inventory_level_for_products_and_locations, if_neg h, he]
    · constructor
      · simp [Inventory.get_inventory_level_for_products_and_locations, if_neg h, he]
      · simp [Inventory.get_inventory_level_for_products_and_locations, if_neg h, he]
  · intro h
    simp [Inventory.get_inventory_level_for_products_and_locations, if_pos h]

/-- C7 witness: `product_code=SKU1` with no `location` passes and
issues one query; neither parameter yields the documented 400 with no
query. -/
theorem c7_witness :
    ((Inventory.get_inventory_level_for_products_and_locations none (some "SKU1") []).queries
        = [QueryDesc.inventoryLevel [Cond.codeEq "SKU1"]] ∧
      (Inventory.get_inventory_level_for_products_and_locations none (some "SKU1") []).status ≠ 400) ∧
    Inventory.get_inventory_level_for_products_and_locations none (some " ") []
      = { body := Json.obj [("status", Json.int 400),
            ("message", Json.str "At least one parameter (location or product_code) is required")],
          status := 400, queries := [] } := by
  constructor
  · exact (c7_inventory_level_validation none (some "SKU1") []).1 (by decide)
  · exact (c7_inventory_level_validation none (some " ") []).2 (by decide)

/-- C3: each of the three endpoints with a required parameter
(estimated stockout by cover days, sales rate by product, forecast vs
actual by product) answers 400 and issues no query whenever that
parameter is absent (`none`) or empty after stripping. -/
theorem c3_required_param_missing (p : Option String) :
    (pyStrip (p.getD "") = "" →
      ∀ table : List Inventory.StockRow,
        (Inventory.estimated_stockout_of_products_by_cover_days p table).status = 400 ∧
        (Inventory.estimated_stockout_of_products_by_cover_days p table).queries = []) ∧
    (pyStrip (p.getD "") = "" →
      ∀ results : List Sales.LocationSalesRow,
        (Sales.sales_rate_by_product_and_location p results).status = 400 ∧
        (Sales.sales_rate_by_product_and_location p results).queries = []) ∧
    (pyStrip (p.getD "") = "" →
      ∀ results : List Sales.ForecastActualRow,
        (Sales.forecast_sales_vs_actual_sales_for_products_and_locations p results).status = 400 ∧
        (Sales.forecast_sales_vs_actual_sales_for_products_and_locations p results).queries = []) := by
  refine ⟨fun h table => ?_, fun h results => ?_, fun h results => ?_⟩
  · constructor <;>
      simp [Inventory.estimated_stockout_of_products_by_cover_days, if_pos h]
  · constructor <;>
      simp [Sales.sales_rate_by_product_and_location, if_pos h]
  · constructor <;>
      simp [Sales.forecast_sales_vs_actual_sales_for_products_and_locations, if_pos h]

/-- C3 witness: the absent parameter (and a whitespace-only one) on
concrete empty result sets. -/
theorem c3_witness :
    (Inventory.estimated_stockout_of_products_by_cover_days none [⟨"A", 3⟩]).status = 400 ∧
    (Inventory.estimated_stockout_of_products_by_cover_days none [⟨"A", 3⟩]).queries = [] ∧
    (Sales.sales_rate_by_product_and_location (some "  ") []).status = 400 ∧
    (Sales.sales_rate_by_product_and_location (some "  ") []).queries = [] ∧
    (Sales.forecast_sales_vs_actual_sales_for_products_and_locations none []).status = 400 ∧
    (Sales.forecast_sales_vs_actual_sales_for_products_and_locations none []).queries = [] := by
  have h1 := (c3_required_param_missing none).1 (by decide) [⟨"A", 3⟩]
  have h2 := (c3_required_param_missing (some "  ")).2.1 (by decide) []
  have h3 := (c3_required_param_missing none).2.2 (by decide) []
  exact ⟨h1.1, h1.2, h2.1, h2.2, h3.1, h3.2⟩

/-- C4: for the estimated-stockout-by-cover-days report, a `cover_days`
parsing to zero or negative yields 400 with no query; the non-numeric
`"abc"` yields 400 with no query; and `cover_days=5` issues exactly the
one query whose per-location below-threshold count counts the location's
rows satisfying `cover_days ≤ 5`. -/
theorem c4_cover_days_threshold (s : String) (n : Int) (table : List Inventory.StockRow) :
    (pyToInt (pyStrip s) = some n → n ≤ 0 →
      (Inventory.estimated_stockout_of_products_by_cover_days (some s) table).status = 400 ∧
      (Inventory.estimated_stockout_of_products_by_cover_days (some s) table).queries = []) ∧
    ((Inventory.estimated_stockout_of_products_by_cover_days (some "abc") table).status = 400 ∧
      (Inventory.estimated_stockout_of_products_by_cover_days (some "abc") table).queries = []) ∧
    (Inventory.estimated_stockout_of_products_by_cover_days (some "5") table).queries
      = [QueryDesc.stockoutByCoverDays 5] ∧
    (∀ l : String, ∀ tot bel : Int, (l, tot, bel) ∈ Inventory.stockoutQuery table 5 →
      bel = Inventory.countBelow table l 5 ∧ tot = Inventory.countTotal table l) := by
  refine ⟨fun hparse hn => ?_, ?_, ?_, fun l tot bel hmem => ?_⟩
  · have hne : pyStrip s ≠ "" := by
      intro he
      rw [he] at hparse
      simp [pyToInt] at hparse
    constructor <;>
      simp [Inventory.estimated_stockout_of_products_by_cover_days, hne, hparse, if_pos hn]
  · exact ⟨rfl, rfl⟩
  · simp only [Inventory.estimated_stockout_of_products_by_cover_days, Option.getD_some,
      show pyStrip "5" = "5" from rfl, show pyToInt "5" = some (5 : Int) from rfl,
      if_neg (show ¬(("5" : String) = "") from by decide),
      if_neg (show ¬((5 : Int) ≤ 0) from by norm_num)]
    split <;> rfl
  · rw [Inventory.stockoutQuery, mem_sortDescBy, List.mem_filter] at hmem
    obtain ⟨hmem, _⟩ := hmem
    rw [List.mem_map] at hmem
    obtain ⟨x, _, hx⟩ := hmem
    simp only [Prod.mk.injEq] at hx
    obtain ⟨h1, h2, h3⟩ := hx
    subst h1
    exact ⟨h3.symm, h2.symm⟩

/-- C4 witness: `"0"` parses to 0 and is rejected without a query, and
on a one-row table the query result's below-threshold count for
location `"A"` equals the count of its rows with `cover_days ≤ 5`. -/
theorem c4_witness :
    (pyToInt (pyStrip "0") = some 0 ∧ (0 : Int) ≤ 0 ∧
      (Inventory.estimated_stockout_of_products_by_cover_days (some "0") [⟨"A", 3⟩]).status = 400 ∧
      (Inventory.estimated_stockout_of_products_by_cover_days (some "0") [⟨"A", 3⟩]).queries = []) ∧
    ("A", 1, 1) ∈ Inventory.stockoutQuery [⟨"A", 3⟩] 5 ∧
    (1 : Int) = Inventory.countBelow [⟨"A", 3⟩] "A" 5 := by
  have h := c4_cover_days_threshold "0" 0 [⟨"A", 3⟩]
  refine ⟨⟨rfl, le_refl 0, (h.1 rfl (le_refl 0)).1, (h.1 rfl (le_refl 0)).2⟩, by decide, ?_⟩
  exact (h.2.2.2 "A" 1 1 (by decide)).1

/-- C1 counterexample: the sales endpoint for top products by projected
demand has no empty-result check — on an empty result set it answers
HTTP 200 with an empty JSON array, not 404. -/
theorem c1_counterexample :
    Sales.top_products_and_their_projected_demand [] = (Json.arr [], 200) ∧
    (Sales.top_products_and_their_projected_demand []).2 ≠ 404 :=
  ⟨rfl, by decide⟩

/-- C1 amended: on an empty result set, every inventory endpoint except
the variance analysis answers 404 with its documented message, and so do
the two sales unique-value endpoints; the variance-analysis endpoint and
the five sales metric endpoints (top products by projected demand,
overselling, underselling, sales rate by product, forecast vs actual)
instead answer HTTP 200 with an empty data payload. -/
theorem c1_empty_result_behaviour :
    Inventory.unique_product_categories []
      = (Json.obj [("status", Json.int 404), ("message", Json.str "No product categories found")], 404) ∧
    Inventory.unique_warehouse_locations []
      = (Json.obj [("status", Json.int 404), ("message", Json.str "No warehouse locations found")], 404) ∧
    Inventory.stocked_out_products_all_locations []
      = (Json.obj [("status", Json.int 404), ("message", Json.str "No stocked out products found")], 404) ∧
    Inventory.overstocked_products_by_location_and_product []
      = (Json.obj [("status", Json.int 404), ("message", Json.str "No overstocked items found.")], 404) ∧
    Inventory.understocked_products_by_location_and_product []
      = (Json.obj [("message", Json.str "No understocked items found")], 404) ∧
    Inventory.stock_distribution_and_status_across_all_locations []
      = (Json.obj [("message", Json.str "No stock level data found"),
          ("status", Json.str "empty"), ("data", Json.arr [])], 404) ∧
    Inventory.expected_stock_requirements_for_products_till_month_ends []
      = (Json.obj [("status", Json.int 404), ("message", Json.str "No stock level data found")], 404) ∧
    Inventory.cover_days_summary []
      = (Json.obj [("status", Json.int 404), ("message", Json.str "No cover days distribution data found")], 404) ∧
    Inventory.discontinued_products_across_all_warehouse_locations []
      = (Json.obj [("status", Json.int 404), ("message", Json.str "No discontinued products data found")], 404) ∧
    Sales.unique_product_categories []
      = (Json.obj [("status", Json.int 404), ("message", Json.str "No product categories found")], 404) ∧
    Sales.unique_warehouse_locations []
      = (Json.obj [("status", Json.int 404), ("message", Json.str "No warehouse locations found")], 404) ∧
    (∀ location_arg product_code_arg : Option String,
      ¬ (pyStrip (location_arg.getD "") = "" ∧ pyStrip (product_code_arg.getD "") = "") →
      (Inventory.get_inventory_level_for_products_and_locations location_arg product_code_arg []).status = 404 ∧
      (Inventory.get_inventory_level_for_products_and_locations location_arg product_code_arg []).body
        = Json.obj [("status", Json.int 404),
            ("message", Json.str ("No inventory data found for " ++ String.intercalate " and "
              (Inventory.searchCriteria (pyStrip (location_arg.getD ""))
                (pyStrip (product_code_arg.getD "")))))]) ∧
    (∀ s : String, ∀ n : Int, ∀ table : List Inventory.StockRow,
      pyToInt (pyStrip s) = some n → 0 < n → Inventory.stockoutQuery table n = [] →
      (Inventory.estimated_stockout_of_products_by_cover_days (some s) table).status = 404 ∧
      (Inventory.estimated_stockout_of_products_by_cover_days (some s) table).body
        = Json.obj [("status", Json.int 404),
            ("message", Json.str "No estimates found for the given criteria")]) ∧
    Inventory.inventory_variance_analysis_across_locations [] []
      = (Json.obj [("positive_variance_data", Json.arr []),
          ("negative_variance_data", Json.arr [])], 200) ∧
    Sales.top_products_and_their_projected_demand [] = (Json.arr [], 200) ∧
    Sales.overselling_products_based_on_sales []
      = (Json.obj [("message", Json.str "All overselling products across all locations."),
          ("data", Json.arr [])], 200) ∧
    Sales.underselling_products_based_on_sales []
      = (Json.obj [("message", Json.str "All underselling products across all locations."),
          ("data", Json.arr [])], 200) ∧
    (∀ s : String, ∀ n : Int, pyToInt (pyStrip s) = some n →
      (Sales.sales_rate_by_product_and_location (some s) []).status = 200 ∧
      (Sales.sales_rate_by_product_and_location (some s) []).body = Json.arr []) ∧
    (∀ s : String, ∀ n : Int, pyToInt (pyStrip s) = some n →
      (Sales.forecast_sales_vs_actual_sales_for_products_and_locations (some s) []).status = 200 ∧
      (Sales.forecast_sales_vs_actual_sales_for_products_and_locations (some s) []).body = Json.arr []) := by
  refine ⟨rfl, rfl, rfl, rfl, rfl, rfl, rfl, rfl, rfl, rfl, rfl,
    fun la pa h => ?_, fun s n table hparse hpos hempty => ?_, rfl, rfl, rfl, rfl,
    fun s n hparse => ?_, fun s n hparse => ?_⟩
  · constructor <;>
      simp [Inventory.get_inventory_level_for_products_and_locations, if_neg h]
  · have hne : pyStrip s ≠ "" := by
      intro he
      rw [he] at hparse
      simp [pyToInt] at hparse
    constructor <;>
      simp [Inventory.estimated_stockout_of_products_by_cover_days, hne, hparse,
        not_le.mpr hpos, hempty]
  · have hne : pyStrip s ≠ "" := by
      intro he
      rw [he] at hparse
      simp [pyToInt] at hparse
    constructor <;> simp [Sales.sales_rate_by_product_and_location, hne, hparse]
  · have hne : pyStrip s ≠ "" := by
      intro he
      rw [he] at hparse
      simp [pyToInt] at hparse
    constructor <;>
      simp [Sales.forecast_sales_vs_actual_sales_for_products_and_locations, hne, hparse]

/-- C1 witness: the hypothesis-bearing parts of the amended theorem
evaluated at concrete requests with empty result sets. -/
theorem c1_witness :
    ((Inventory.get_inventory_level_for_products_and_locations none (some "SKU1") []).status = 404 ∧
      (Inventory.get_inventory_level_for_products_and_locations none (some "SKU1") []).body
        = Json.obj [("status", Json.int 404),
            ("message", Json.str "No inventory data found for product code: SKU1")]) ∧
    ((Inventory.estimated_stockout_of_products_by_cover_days (some "5") []).status = 404) ∧
    ((Sales.sales_rate_by_product_and_location (some "123") []).status = 200) ∧
    ((Sales.forecast_sales_vs_actual_sales_for_products_and_locations (some "123") []).status = 200) := by
  have h := c1_empty_result_behaviour
  have h1 := h.2.2.2.2.2.2.2.2.2.2.2.1 none (some "SKU1") (by decide)
  have h2 := h.2.2.2.2.2.2.2.2.2.2.2.2.1 "5" 5 [] rfl (by norm_num) rfl
  have h3 := h.2.2.2.2.2.2.2.2.2.2.2.2.2.2.2.2.2.1 "123" 123 rfl
  have h4 := h.2.2.2.2.2.2.2.2.2.2.2.2.2.2.2.2.2.2 "123" 123 rfl
  exact ⟨⟨h1.1, h1.2⟩, h2.1, h3.1, h4.1⟩
